import Mathlib

/-!
Formal model of the Cause_Way telemetry, verification-judge and
configuration modules, translated from the Python sources
(`src/utils/telemetry.py`, `src/verification/judge.py`, `src/config.py`).

Modelling conventions:
* machine floats are modelled as rationals (`ℚ`);
* Python dicts are insertion-ordered association lists;
* the monotonic clock and the wall clock are explicit parameters of
  every operation that reads them in the source;
* Python `round` (round-half-to-even) is `pyRound`;
* Python `//` on ints (floor division) is `Int.fdiv`.
-/

/-- Floor of a rational, via floor division of numerator by denominator. -/
def pyFloor (q : ℚ) : ℤ := Int.fdiv q.num q.den

/-- Python `round(q, ndigits)`: round half to even at `ndigits` decimal places. -/
def pyRound (q : ℚ) (ndigits : ℕ) : ℚ :=
  let m : ℚ := q * (10 ^ ndigits : ℕ)
  let f : ℤ := pyFloor m
  let frac : ℚ := m - f
  let r : ℤ :=
    if frac < 1/2 then f
    else if 1/2 < frac then f + 1
    else if f % 2 = 0 then f else f + 1
  (r : ℚ) / ((10 ^ ndigits : ℕ) : ℚ)

/-- Python dict assignment `d[k] = v`: replace in place if the key exists
(Python 3.7+ dicts preserve insertion order), else append. -/
def dictInsert {α : Type} : List (String × α) → String → α → List (String × α)
  | [], k, v => [(k, v)]
  | (k', v') :: rest, k, v =>
    if k' = k then (k, v) :: rest else (k', v') :: dictInsert rest k v

/-- Python `d.get(k)` / `d[k]` lookup: first binding for the key. -/
def dictGet? {α : Type} : List (String × α) → String → Option α
  | [], _ => none
  | (k', v') :: rest, k => if k' = k then some v' else dictGet? rest k

/-- Python `d.update(extra)`. -/
def dictUpdate {α : Type} (d extra : List (String × α)) : List (String × α) :=
  extra.foldl (fun acc kv => dictInsert acc kv.1 kv.2) d

/-- Python truthiness of an `Optional[str]`: `None` and `""` are falsy. -/
def pyOptStrTruthy : Option String → Bool
  | none => false
  | some s => !s.isEmpty

/-- Python `sep.join(parts)`. -/
def joinSep (sep : String) : List String → String
  | [] => ""
  | [x] => x
  | x :: y :: rest => x ++ sep ++ joinSep sep (y :: rest)

/-- JSON-like values, for telemetry event payloads and dump artifacts. -/
inductive JVal where
  | null : JVal
  | bool (b : Bool) : JVal
  | num (q : ℚ) : JVal
  | str (s : String) : JVal
  | arr (xs : List JVal) : JVal
  | obj (kvs : List (String × JVal)) : JVal

-- ━━━━━━━━━━━━━━━━━  Telemetry data model (telemetry.py)  ━━━━━━━━━━━━━━━━━

/-- `TelemetryEvent` dataclass: single telemetry data-point. -/
structure TelemetryEvent where
  stage : String
  event : String
  timestamp : ℚ
  wall_clock : String
  data : List (String × JVal)

/-- `LLMCallCounter` dataclass: accumulated stats for LLM calls. -/
structure LLMCallCounter where
  total_calls : ℕ := 0
  total_prompt_chars : ℤ := 0
  total_completion_chars : ℤ := 0
  total_prompt_tokens_est : ℤ := 0
  total_retries : ℕ := 0
  total_errors : ℕ := 0
  total_quota_errors : ℕ := 0
  total_fallbacks : ℕ := 0
  calls_by_model : List (String × ℕ) := []
  latency_samples_ms : List ℚ := []
  deriving DecidableEq

/-- One entry of `PyWhyLLMCounter.raw_outputs`. -/
structure PairRawOutput where
  var1 : String
  var2 : String
  answer_parsed : String
  raw_description : String
  latency_ms : ℚ
  error : Option String
  deriving DecidableEq

/-- `PyWhyLLMCounter` dataclass: stats for the pairwise stage. -/
structure PyWhyLLMCounter where
  total_pairs : ℕ := 0
  pairs_a : ℕ := 0
  pairs_b : ℕ := 0
  pairs_c : ℕ := 0
  pairs_normalized : ℕ := 0
  pairs_parse_fail : ℕ := 0
  pairs_exception : ℕ := 0
  raw_outputs : List PairRawOutput := []
  per_call_latency_ms : List ℚ := []
  deriving DecidableEq

/-- One entry of `VerificationCounter.rejection_reasons`. -/
structure RejectionReason where
  edge : String
  reason : String
  iterations : ℤ
  deriving DecidableEq

/-- `VerificationCounter` dataclass: stats for the verification loop. -/
structure VerificationCounter where
  total_edges_submitted : ℕ := 0
  total_judge_calls : ℕ := 0
  total_adversarial_calls : ℕ := 0
  grounded_count : ℕ := 0
  rejected_count : ℕ := 0
  no_evidence_count : ℕ := 0
  exhausted_iterations_count : ℕ := 0
  duplicate_query_breaks : ℕ := 0
  adversarial_rejections : ℕ := 0
  rejection_reasons : List RejectionReason := []
  verdict_confidences : List ℚ := []
  deriving DecidableEq

/-- `EdgeDropoutTracker` dataclass: where edges are lost across stages. -/
structure EdgeDropoutTracker where
  pywhyllm_proposed : ℕ := 0
  langextract_proposed : ℕ := 0
  total_after_dedup : ℕ := 0
  after_mechanism_synthesis : ℕ := 0
  submitted_to_verification : ℕ := 0
  grounded_by_verification : ℕ := 0
  rejected_by_verification : ℕ := 0
  node_not_found_errors : ℕ := 0
  cycle_detected_errors : ℕ := 0
  other_add_errors : ℕ := 0
  final_edges_in_graph : ℕ := 0
  deriving DecidableEq

/-- One entry of `var_id_resolve_misses`. -/
structure ResolveMiss where
  raw_id : String
  resolved_id : String
  match_type : String
  deriving DecidableEq

/-- State of a `PipelineTelemetry` instance (the fields `reset()` assigns). -/
structure PipelineTelemetry where
  run_start : ℚ
  run_start_wall : String
  events : List TelemetryEvent
  stage_starts : List (String × ℚ)
  stage_durations : List (String × ℚ)
  llm : LLMCallCounter
  pywhyllm : PyWhyLLMCounter
  verification : VerificationCounter
  edge_dropout : EdgeDropoutTracker
  variable_count_raw : ℕ
  variable_count_canonical : ℕ
  variable_count_added : ℕ
  evidence_cache_size : ℕ
  var_id_resolve_misses : List ResolveMiss

/-- The state `reset()` installs: zero counters, empty log, fresh
timestamps (`now` is `time.monotonic()`, `wall` the ISO wall clock). -/
def PipelineTelemetry.freshState (now : ℚ) (wall : String) : PipelineTelemetry :=
  { run_start := now
    run_start_wall := wall
    events := []
    stage_starts := []
    stage_durations := []
    llm := {}
    pywhyllm := {}
    verification := {}
    edge_dropout := {}
    variable_count_raw := 0
    variable_count_canonical := 0
    variable_count_added := 0
    evidence_cache_size := 0
    var_id_resolve_misses := [] }

/-- `PipelineTelemetry.reset`: clears all counters and events; the prior
state is discarded entirely (every attribute is reassigned). -/
def PipelineTelemetry.reset (_self : PipelineTelemetry) (now : ℚ) (wall : String) :
    PipelineTelemetry :=
  PipelineTelemetry.freshState now wall

/-- `PipelineTelemetry.__init__`: delegates to `reset()`. -/
def PipelineTelemetry.initState (now : ℚ) (wall : String) : PipelineTelemetry :=
  PipelineTelemetry.freshState now wall

/-- `PipelineTelemetry.record`: append one immutable event. -/
def PipelineTelemetry.record (st : PipelineTelemetry) (stage event : String)
    (data : List (String × JVal)) (now : ℚ) (wall : String) : PipelineTelemetry :=
  { st with events := st.events ++ [⟨stage, event, now, wall, data⟩] }

/-- `PipelineTelemetry.stage_start`. `tStart` is the monotonic reading the
stage registry stores; `tRec` the (later) reading of the appended event. -/
def PipelineTelemetry.stage_start (st : PipelineTelemetry) (stage : String)
    (tStart tRec : ℚ) (wall : String) : PipelineTelemetry :=
  let st1 := { st with stage_starts := dictInsert st.stage_starts stage tStart }
  st1.record stage "stage_start" [] tRec wall

/-- `PipelineTelemetry.stage_end`. A missing (or falsy, i.e. `0.0`)
recorded start time yields elapsed `0.0`. -/
def PipelineTelemetry.stage_end (st : PipelineTelemetry) (stage : String)
    (extra : Option (List (String × JVal))) (tNow tRec : ℚ) (wall : String) :
    PipelineTelemetry :=
  let t0 := dictGet? st.stage_starts stage
  let elapsed : ℚ :=
    match t0 with
    | some t => if t = 0 then 0 else tNow - t
    | none => 0
  let st1 := { st with stage_durations := dictInsert st.stage_durations stage elapsed }
  let base := [("elapsed_seconds", JVal.num (pyRound elapsed 3))]
  let payload :=
    match extra with
    | some l => if l.isEmpty then base else dictUpdate base l
    | none => base
  st1.record stage "stage_end" payload tRec wall

/-- `record_llm_call`: bump call counters; estimate tokens as
`prompt_chars // 4`; if `prompt_tokens` is truthy (nonzero), clamp the
running estimate up to at least `prompt_tokens`. Appends no event.
`completion_tokens` is accepted and unused, as in the source. -/
def PipelineTelemetry.record_llm_call (st : PipelineTelemetry) (model : String)
    (prompt_chars completion_chars : ℤ) (latency_ms : ℚ)
    (prompt_tokens _completion_tokens : ℤ) : PipelineTelemetry :=
  let llm1 :=
    { st.llm with
      total_calls := st.llm.total_calls + 1
      total_prompt_chars := st.llm.total_prompt_chars + prompt_chars
      total_completion_chars := st.llm.total_completion_chars + completion_chars
      total_prompt_tokens_est := st.llm.total_prompt_tokens_est + Int.fdiv prompt_chars 4
      latency_samples_ms := st.llm.latency_samples_ms ++ [latency_ms]
      calls_by_model :=
        dictInsert st.llm.calls_by_model model
          ((dictGet? st.llm.calls_by_model model).getD 0 + 1) }
  let llm2 :=
    if prompt_tokens ≠ 0 then
      { llm1 with total_prompt_tokens_est := max llm1.total_prompt_tokens_est prompt_tokens }
    else llm1
  { st with llm := llm2 }

/-- `record_llm_retry`: bump the retry counter and append a `retry` event. -/
def PipelineTelemetry.record_llm_retry (st : PipelineTelemetry) (model : String)
    (attempt : ℤ) (error : String) (now : ℚ) (wall : String) : PipelineTelemetry :=
  let st1 := { st with llm := { st.llm with total_retries := st.llm.total_retries + 1 } }
  st1.record "llm" "retry"
    [("model", JVal.str model), ("attempt", JVal.num attempt),
     ("error", JVal.str (error.take 300))] now wall

/-- `record_llm_error`: bump error (and possibly quota) counters and
append an `error` event. -/
def PipelineTelemetry.record_llm_error (st : PipelineTelemetry) (model error : String)
    (is_quota : Bool) (now : ℚ) (wall : String) : PipelineTelemetry :=
  let llm1 := { st.llm with total_errors := st.llm.total_errors + 1 }
  let llm2 :=
    if is_quota then { llm1 with total_quota_errors := llm1.total_quota_errors + 1 }
    else llm1
  let st1 := { st with llm := llm2 }
  st1.record "llm" "error"
    [("model", JVal.str model), ("error", JVal.str (error.take 500)),
     ("is_quota", JVal.bool is_quota)] now wall

/-- `record_llm_fallback`: bump the fallback counter and append an event. -/
def PipelineTelemetry.record_llm_fallback (st : PipelineTelemetry) (model : String)
    (now : ℚ) (wall : String) : PipelineTelemetry :=
  let st1 := { st with llm := { st.llm with total_fallbacks := st.llm.total_fallbacks + 1 } }
  st1.record "llm" "native_to_prompt_fallback" [("model", JVal.str model)] now wall

/-- `record_pywhyllm_pair`: bump `total_pairs`, classify the answer into
exactly one bucket (a truthy `error` wins, then `A`/`B`/`C`, else parse
failure), optionally count a normalization, and retain the raw output
only while fewer than 200 samples are stored. Appends no event. -/
def PipelineTelemetry.record_pywhyllm_pair (st : PipelineTelemetry)
    (var1 var2 answer raw_description : String) (latency_ms : ℚ)
    (error : Option String) (was_normalized : Bool) : PipelineTelemetry :=
  let p0 :=
    { st.pywhyllm with
      total_pairs := st.pywhyllm.total_pairs + 1
      per_call_latency_ms := st.pywhyllm.per_call_latency_ms ++ [latency_ms] }
  let p1 :=
    if pyOptStrTruthy error then { p0 with pairs_exception := p0.pairs_exception + 1 }
    else if answer = "A" then { p0 with pairs_a := p0.pairs_a + 1 }
    else if answer = "B" then { p0 with pairs_b := p0.pairs_b + 1 }
    else if answer = "C" then { p0 with pairs_c := p0.pairs_c + 1 }
    else { p0 with pairs_parse_fail := p0.pairs_parse_fail + 1 }
  let p2 :=
    if was_normalized then { p1 with pairs_normalized := p1.pairs_normalized + 1 }
    else p1
  let p3 :=
    if p2.raw_outputs.length < 200 then
      { p2 with raw_outputs := p2.raw_outputs ++
          [{ var1 := var1
             var2 := var2
             answer_parsed := answer
             raw_description :=
               if raw_description.isEmpty then "" else raw_description.take 500
             latency_ms := pyRound latency_ms 1
             error := error }] }
    else p2
  { st with pywhyllm := p3 }

/-- `record_verification_verdict`: bump `total_judge_calls`, store the
confidence, and append a `judge_verdict` event. -/
def PipelineTelemetry.record_verification_verdict (st : PipelineTelemetry)
    (from_var to_var : String) (iteration : ℤ) (is_grounded : Bool)
    (confidence : ℚ) (support_type : String) (has_refinement : Bool)
    (evidence_chunk_count evidence_block_chars : ℤ) (now : ℚ) (wall : String) :
    PipelineTelemetry :=
  let st1 :=
    { st with verification :=
        { st.verification with
          total_judge_calls := st.verification.total_judge_calls + 1
          verdict_confidences := st.verification.verdict_confidences ++ [confidence] } }
  st1.record "verification" "judge_verdict"
    [("edge", JVal.str (from_var ++ "->" ++ to_var)),
     ("iteration", JVal.num iteration),
     ("is_grounded", JVal.bool is_grounded),
     ("confidence", JVal.num confidence),
     ("support_type", JVal.str support_type),
     ("has_refinement", JVal.bool has_refinement),
     ("evidence_chunk_count", JVal.num evidence_chunk_count),
     ("evidence_block_chars", JVal.num evidence_block_chars)] now wall

/-- `record_verification_final`: bump exactly one of the grounded /
rejected counters; a rejection also stores its reason. Appends no event. -/
def PipelineTelemetry.record_verification_final (st : PipelineTelemetry)
    (from_var to_var : String) (grounded : Bool) (rejection_reason : Option String)
    (iterations_used : ℤ) : PipelineTelemetry :=
  if grounded then
    { st with verification :=
        { st.verification with grounded_count := st.verification.grounded_count + 1 } }
  else
    { st with verification :=
        { st.verification with
          rejected_count := st.verification.rejected_count + 1
          rejection_reasons := st.verification.rejection_reasons ++
            [{ edge := from_var ++ "->" ++ to_var
               reason := rejection_reason.getD "unknown"
               iterations := iterations_used }] } }

/-- `record_var_id_resolve_miss`: append one miss record. -/
def PipelineTelemetry.record_var_id_resolve_miss (st : PipelineTelemetry)
    (raw_id resolved_id match_type : String) : PipelineTelemetry :=
  { st with var_id_resolve_misses := st.var_id_resolve_misses ++
      [{ raw_id := raw_id, resolved_id := resolved_id, match_type := match_type }] }

-- ━━━━━━━━━━━━━━━━━  summary() (telemetry.py)  ━━━━━━━━━━━━━━━━━

/-- The `variables` block of `summary()`. -/
structure SummaryVariables where
  raw_discovered : ℕ
  after_canonicalization : ℕ
  added_to_engine : ℕ
  deriving DecidableEq

/-- The `llm_calls` block of `summary()`. -/
structure SummaryLLMCalls where
  total : ℕ
  by_model : List (String × ℕ)
  total_prompt_chars : ℤ
  total_completion_chars : ℤ
  est_total_prompt_tokens : ℤ
  avg_latency_ms : ℚ
  retries : ℕ
  errors : ℕ
  quota_errors : ℕ
  fallbacks_to_prompt_injection : ℕ
  deriving DecidableEq

/-- The `pywhyllm_pairwise` block of `summary()`. -/
structure SummaryPyWhy where
  total_pairs : ℕ
  theoretical_pairs_formula : String
  edges_found_A : ℕ
  edges_found_B : ℕ
  no_relationship_C : ℕ
  answers_recovered_via_normalization : ℕ
  parse_failures : ℕ
  exceptions : ℕ
  avg_latency_ms : ℚ
  deriving DecidableEq

/-- The `verification` block of `summary()`. -/
structure SummaryVerification where
  edges_submitted : ℕ
  judge_calls : ℕ
  adversarial_calls : ℕ
  grounded : ℕ
  rejected : ℕ
  no_evidence_retrievals : ℕ
  exhausted_iterations : ℕ
  duplicate_query_breaks : ℕ
  adversarial_rejections : ℕ
  avg_verdict_confidence : ℚ
  rejection_reasons : List RejectionReason
  deriving DecidableEq

/-- The dictionary `summary()` returns. -/
structure Summary where
  run_start_utc : String
  total_run_seconds : ℚ
  stage_durations_seconds : List (String × ℚ)
  variables' : SummaryVariables
  llm_calls : SummaryLLMCalls
  pywhyllm_pairwise : SummaryPyWhy
  edge_dropout : EdgeDropoutTracker
  verification : SummaryVerification
  var_id_resolve_misses : List ResolveMiss
  evidence_cache_size : ℕ
  deriving DecidableEq

/-- `PipelineTelemetry.summary`: serialisable snapshot of the run.
`now` is the `time.monotonic()` reading taken inside the call; the
source mutates no attribute, so the translation is a pure function. -/
def PipelineTelemetry.summary (st : PipelineTelemetry) (now : ℚ) : Summary :=
  let avg_pywhyllm : ℚ :=
    st.pywhyllm.per_call_latency_ms.sum / (max st.pywhyllm.per_call_latency_ms.length 1 : ℕ)
  let avg_llm : ℚ :=
    st.llm.latency_samples_ms.sum / (max st.llm.latency_samples_ms.length 1 : ℕ)
  { run_start_utc := st.run_start_wall
    total_run_seconds := pyRound (now - st.run_start) 2
    stage_durations_seconds := st.stage_durations.map fun kv => (kv.1, pyRound kv.2 2)
    variables' :=
      { raw_discovered := st.variable_count_raw
        after_canonicalization := st.variable_count_canonical
        added_to_engine := st.variable_count_added }
    llm_calls :=
      { total := st.llm.total_calls
        by_model := st.llm.calls_by_model
        total_prompt_chars := st.llm.total_prompt_chars
        total_completion_chars := st.llm.total_completion_chars
        est_total_prompt_tokens := st.llm.total_prompt_tokens_est
        avg_latency_ms := pyRound avg_llm 1
        retries := st.llm.total_retries
        errors := st.llm.total_errors
        quota_errors := st.llm.total_quota_errors
        fallbacks_to_prompt_injection := st.llm.total_fallbacks }
    pywhyllm_pairwise :=
      { total_pairs := st.pywhyllm.total_pairs
        theoretical_pairs_formula := "C(n,2) = n*(n-1)/2"
        edges_found_A := st.pywhyllm.pairs_a
        edges_found_B := st.pywhyllm.pairs_b
        no_relationship_C := st.pywhyllm.pairs_c
        answers_recovered_via_normalization := st.pywhyllm.pairs_normalized
        parse_failures := st.pywhyllm.pairs_parse_fail
        exceptions := st.pywhyllm.pairs_exception
        avg_latency_ms := pyRound avg_pywhyllm 1 }
    edge_dropout := st.edge_dropout
    verification :=
      { edges_submitted := st.verification.total_edges_submitted
        judge_calls := st.verification.total_judge_calls
        adversarial_calls := st.verification.total_adversarial_calls
        grounded := st.verification.grounded_count
        rejected := st.verification.rejected_count
        no_evidence_retrievals := st.verification.no_evidence_count
        exhausted_iterations := st.verification.exhausted_iterations_count
        duplicate_query_breaks := st.verification.duplicate_query_breaks
        adversarial_rejections := st.verification.adversarial_rejections
        avg_verdict_confidence :=
          pyRound (st.verification.verdict_confidences.sum /
            (max st.verification.verdict_confidences.length 1 : ℕ)) 3
        rejection_reasons := st.verification.rejection_reasons.take 50 }
    var_id_resolve_misses := st.var_id_resolve_misses.take 30
    evidence_cache_size := st.evidence_cache_size }

-- ━━━━━━━━━━━━━━━━━  dump() (telemetry.py)  ━━━━━━━━━━━━━━━━━

/-- JSON rendering of one retained raw pairwise output. -/
def jsonOfRawOutput (r : PairRawOutput) : JVal :=
  JVal.obj
    [("var1", JVal.str r.var1),
     ("var2", JVal.str r.var2),
     ("answer_parsed", JVal.str r.answer_parsed),
     ("raw_description", JVal.str r.raw_description),
     ("latency_ms", JVal.num r.latency_ms),
     ("error", match r.error with | none => JVal.null | some e => JVal.str e)]

/-- JSON rendering of one event in the dump artifact: drops the raw
monotonic timestamp and exposes `elapsed_since_start` instead. -/
def jsonOfDumpEvent (run_start : ℚ) (ev : TelemetryEvent) : JVal :=
  JVal.obj
    [("stage", JVal.str ev.stage),
     ("event", JVal.str ev.event),
     ("wall_clock", JVal.str ev.wall_clock),
     ("elapsed_since_start", JVal.num (pyRound (ev.timestamp - run_start) 3)),
     ("data", JVal.obj ev.data)]

/-- JSON rendering of a rejection-reason entry. -/
def jsonOfRejectionReason (r : RejectionReason) : JVal :=
  JVal.obj
    [("edge", JVal.str r.edge), ("reason", JVal.str r.reason),
     ("iterations", JVal.num r.iterations)]

/-- JSON rendering of a resolve-miss entry. -/
def jsonOfResolveMiss (m : ResolveMiss) : JVal :=
  JVal.obj
    [("raw_id", JVal.str m.raw_id), ("resolved_id", JVal.str m.resolved_id),
     ("match_type", JVal.str m.match_type)]

/-- JSON rendering of the dict `summary()` returns (the keys of the
dict literal in the source). -/
def jsonOfSummary (s : Summary) : JVal :=
  JVal.obj
    [("run_start_utc", JVal.str s.run_start_utc),
     ("total_run_seconds", JVal.num s.total_run_seconds),
     ("stage_durations_seconds",
       JVal.obj (s.stage_durations_seconds.map fun kv => (kv.1, JVal.num kv.2))),
     ("variables", JVal.obj
       [("raw_discovered", JVal.num s.variables'.raw_discovered),
        ("after_canonicalization", JVal.num s.variables'.after_canonicalization),
        ("added_to_engine", JVal.num s.variables'.added_to_engine)]),
     ("llm_calls", JVal.obj
       [("total", JVal.num s.llm_calls.total),
        ("by_model", JVal.obj (s.llm_calls.by_model.map fun kv => (kv.1, JVal.num kv.2))),
        ("total_prompt_chars", JVal.num s.llm_calls.total_prompt_chars),
        ("total_completion_chars", JVal.num s.llm_calls.total_completion_chars),
        ("est_total_prompt_tokens", JVal.num s.llm_calls.est_total_prompt_tokens),
        ("avg_latency_ms", JVal.num s.llm_calls.avg_latency_ms),
        ("retries", JVal.num s.llm_calls.retries),
        ("errors", JVal.num s.llm_calls.errors),
        ("quota_errors", JVal.num s.llm_calls.quota_errors),
        ("fallbacks_to_prompt_injection", JVal.num s.llm_calls.fallbacks_to_prompt_injection)]),
     ("pywhyllm_pairwise", JVal.obj
       [("total_pairs", JVal.num s.pywhyllm_pairwise.total_pairs),
        ("theoretical_pairs_formula", JVal.str s.pywhyllm_pairwise.theoretical_pairs_formula),
        ("edges_found_A", JVal.num s.pywhyllm_pairwise.edges_found_A),
        ("edges_found_B", JVal.num s.pywhyllm_pairwise.edges_found_B),
        ("no_relationship_C", JVal.num s.pywhyllm_pairwise.no_relationship_C),
        ("answers_recovered_via_normalization",
          JVal.num s.pywhyllm_pairwise.answers_recovered_via_normalization),
        ("parse_failures", JVal.num s.pywhyllm_pairwise.parse_failures),
        ("exceptions", JVal.num s.pywhyllm_pairwise.exceptions),
        ("avg_latency_ms", JVal.num s.pywhyllm_pairwise.avg_latency_ms)]),
     ("edge_dropout", JVal.obj
       [("pywhyllm_proposed", JVal.num s.edge_dropout.pywhyllm_proposed),
        ("langextract_proposed", JVal.num s.edge_dropout.langextract_proposed),
        ("total_after_dedup", JVal.num s.edge_dropout.total_after_dedup),
        ("after_mechanism_synthesis", JVal.num s.edge_dropout.after_mechanism_synthesis),
        ("submitted_to_verification", JVal.num s.edge_dropout.submitted_to_verification),
        ("grounded_by_verification", JVal.num s.edge_dropout.grounded_by_verification),
        ("rejected_by_verification", JVal.num s.edge_dropout.rejected_by_verification),
        ("node_not_found_errors", JVal.num s.edge_dropout.node_not_found_errors),
        ("cycle_detected_errors", JVal.num s.edge_dropout.cycle_detected_errors),
        ("other_add_errors", JVal.num s.edge_dropout.other_add_errors),
        ("final_edges_in_graph", JVal.num s.edge_dropout.final_edges_in_graph)]),
     ("verification", JVal.obj
       [("edges_submitted", JVal.num s.verification.edges_submitted),
        ("judge_calls", JVal.num s.verification.judge_calls),
        ("adversarial_calls", JVal.num s.verification.adversarial_calls),
        ("grounded", JVal.num s.verification.grounded),
        ("rejected", JVal.num s.verification.rejected),
        ("no_evidence_retrievals", JVal.num s.verification.no_evidence_retrievals),
        ("exhausted_iterations", JVal.num s.verification.exhausted_iterations),
        ("duplicate_query_breaks", JVal.num s.verification.duplicate_query_breaks),
        ("adversarial_rejections", JVal.num s.verification.adversarial_rejections),
        ("avg_verdict_confidence", JVal.num s.verification.avg_verdict_confidence),
        ("rejection_reasons", JVal.arr (s.verification.rejection_reasons.map jsonOfRejectionReason))]),
     ("var_id_resolve_misses", JVal.arr (s.var_id_resolve_misses.map jsonOfResolveMiss)),
     ("evidence_cache_size", JVal.num s.evidence_cache_size)]

/-- The single JSON document `dump()` writes. -/
def dumpPayload (st : PipelineTelemetry) (now : ℚ) : JVal :=
  JVal.obj
    [("summary", jsonOfSummary (st.summary now)),
     ("pywhyllm_raw_outputs", JVal.arr (st.pywhyllm.raw_outputs.map jsonOfRawOutput)),
     ("events", JVal.arr (st.events.map (jsonOfDumpEvent st.run_start)))]

/-- Top-level keys of a JSON object. -/
def jvalTopKeys : JVal → List String
  | JVal.obj kvs => kvs.map Prod.fst
  | _ => []

/-- A `pathlib.Path`-style path: absolute flag plus components. -/
structure PyPath where
  absolute : Bool
  comps : List String
  deriving DecidableEq

/-- Split a character list on `'/'` separators. -/
def splitSlashAux : List Char → List Char → List String
  | [], acc => [String.mk acc.reverse]
  | c :: rest, acc =>
    if c = '/' then String.mk acc.reverse :: splitSlashAux rest []
    else splitSlashAux rest (c :: acc)

/-- Parse a POSIX path string into a `PyPath` (empty components from
repeated separators are dropped, as `pathlib` normalizes them). -/
def parsePath (s : String) : PyPath :=
  { absolute := match s.data with | '/' :: _ => true | _ => false
    comps := (splitSlashAux s.data []).filter (· ≠ "") }

/-- `Path.resolve()` against a current working directory, in the
symlink-free fragment the program relies on. -/
def resolvePath (cwd : List String) (p : PyPath) : List String :=
  if p.absolute then p.comps else cwd ++ p.comps

/-- A minimal filesystem: existing directories and written files. -/
structure FileSystem where
  dirs : List (List String)
  files : List (List String × JVal)

/-- `dir.mkdir(parents=True, exist_ok=True)`: make the directory and all
its ancestors exist. -/
def mkdirParents (fs : FileSystem) (d : List String) : FileSystem :=
  { fs with dirs := fs.dirs ++ ((List.range (d.length + 1)).map fun k => d.take k) }

/-- `PipelineTelemetry.dump`: ensure the parent directory exists, write
the payload at the resolved absolute path, and return that path. -/
def PipelineTelemetry.dump (st : PipelineTelemetry) (now : ℚ) (fs : FileSystem)
    (cwd : List String) (path : String) : FileSystem × List String :=
  let out := parsePath path
  let parent : PyPath := { out with comps := out.comps.dropLast }
  let fs1 := mkdirParents fs (resolvePath cwd parent)
  let abs_path := resolvePath cwd out
  ({ fs1 with files := fs1.files ++ [(abs_path, dumpPayload st now)] }, abs_path)

-- ━━━━━━━━━━━━━━━━━  Recorder-call sequences  ━━━━━━━━━━━━━━━━━

/-- One recorder invocation on the telemetry singleton, with the clock
readings it observes. -/
inductive TelOp where
  | record (stage event : String) (data : List (String × JVal)) (now : ℚ) (wall : String)
  | stage_start (stage : String) (tStart tRec : ℚ) (wall : String)
  | stage_end (stage : String) (extra : Option (List (String × JVal)))
      (tNow tRec : ℚ) (wall : String)
  | record_llm_call (model : String) (prompt_chars completion_chars : ℤ)
      (latency_ms : ℚ) (prompt_tokens completion_tokens : ℤ)
  | record_llm_retry (model : String) (attempt : ℤ) (error : String) (now : ℚ) (wall : String)
  | record_llm_error (model error : String) (is_quota : Bool) (now : ℚ) (wall : String)
  | record_llm_fallback (model : String) (now : ℚ) (wall : String)
  | record_pywhyllm_pair (var1 var2 answer raw_description : String)
      (latency_ms : ℚ) (error : Option String) (was_normalized : Bool)
  | record_verification_verdict (from_var to_var : String) (iteration : ℤ)
      (is_grounded : Bool) (confidence : ℚ) (support_type : String)
      (has_refinement : Bool) (evidence_chunk_count evidence_block_chars : ℤ)
      (now : ℚ) (wall : String)
  | record_verification_final (from_var to_var : String) (grounded : Bool)
      (rejection_reason : Option String) (iterations_used : ℤ)
  | record_var_id_resolve_miss (raw_id resolved_id match_type : String)

/-- Apply one recorder call to the telemetry state. -/
def telStep (st : PipelineTelemetry) : TelOp → PipelineTelemetry
  | TelOp.record stage event data now wall => st.record stage event data now wall
  | TelOp.stage_start stage tStart tRec wall => st.stage_start stage tStart tRec wall
  | TelOp.stage_end stage extra tNow tRec wall => st.stage_end stage extra tNow tRec wall
  | TelOp.record_llm_call model pc cc lat pt ct => st.record_llm_call model pc cc lat pt ct
  | TelOp.record_llm_retry model attempt error now wall =>
      st.record_llm_retry model attempt error now wall
  | TelOp.record_llm_error model error isq now wall =>
      st.record_llm_error model error isq now wall
  | TelOp.record_llm_fallback model now wall => st.record_llm_fallback model now wall
  | TelOp.record_pywhyllm_pair v1 v2 ans raw lat err wn =>
      st.record_pywhyllm_pair v1 v2 ans raw lat err wn
  | TelOp.record_verification_verdict fv tv it ig conf sup hr ecc ebc now wall =>
      st.record_verification_verdict fv tv it ig conf sup hr ecc ebc now wall
  | TelOp.record_verification_final fv tv g rr iu =>
      st.record_verification_final fv tv g rr iu
  | TelOp.record_var_id_resolve_miss r i m => st.record_var_id_resolve_miss r i m

/-- Apply a sequence of recorder calls in order. -/
def telRun (st : PipelineTelemetry) (ops : List TelOp) : PipelineTelemetry :=
  ops.foldl telStep st

/-- Is this operation a `record_verification_final` call? -/
def TelOp.isVerificationFinal : TelOp → Bool
  | TelOp.record_verification_final _ _ _ _ _ => true
  | _ => false

/-- Arguments of a `record_llm_call` invocation:
`(model, prompt_chars, completion_chars, latency_ms, prompt_tokens, completion_tokens)`. -/
def mkLlmCallOp (a : String × ℤ × ℤ × ℚ × ℤ × ℤ) : TelOp :=
  TelOp.record_llm_call a.1 a.2.1 a.2.2.1 a.2.2.2.1 a.2.2.2.2.1 a.2.2.2.2.2

/-- A `record_llm_call` invocation leaving `prompt_tokens` at its default
of `0`; arguments `(model, prompt_chars, completion_chars, latency_ms)`. -/
def mkLlmCallOpDefault (a : String × ℤ × ℤ × ℚ) : TelOp :=
  TelOp.record_llm_call a.1 a.2.1 a.2.2.1 a.2.2.2 0 0

-- ━━━━━━━━━━━━━━━━━  Verification judge (judge.py)  ━━━━━━━━━━━━━━━━━

/-- `SupportType` enum. -/
inductive SupportType where
  | direct_causal : SupportType
  | correlation_only : SupportType
  | irrelevant : SupportType
  deriving DecidableEq

/-- `VerificationVerdict` schema: structured output of the grounding judge. -/
structure VerificationVerdict where
  is_grounded : Bool
  support_type : SupportType
  supporting_quote : Option String
  rejection_reason : Option String
  confidence : ℚ
  suggested_refinement_query : Option String
  deriving DecidableEq

/-- `AdversarialVerdict` schema: structured output of the adversarial judge. -/
structure AdversarialVerdict where
  still_grounded : Bool
  alternative_explanations : List String
  assumptions_required : List String
  conditions : List String
  confidence : ℚ
  deriving DecidableEq

/-- Modelled from the spec: `EvidenceSource` of `src/models/evidence.py`
(not under `src/`) — "`source` {document id, document title}". The title
is optional in the judge, which falls back to the id when it is falsy. -/
structure EvidenceSource where
  doc_id : String
  doc_title : Option String

/-- Modelled from the spec: `EvidenceLocation` of `src/models/evidence.py`
(not under `src/`) — "`location` {page number, section name}"; both
fields are treated as optional/falsy-able by the judge. -/
structure EvidenceLocation where
  page_number : Option ℤ
  section_name : Option String

/-- Modelled from the spec: `EvidenceBundle` of `src/models/evidence.py`
(not under `src/`) — a retrieved text chunk with content, content hash,
source and location. -/
structure EvidenceBundle where
  content : String
  content_hash : String
  source : EvidenceSource
  location : EvidenceLocation

/-- `chunk.source.doc_title or chunk.source.doc_id` (falsy title falls
back to the id). -/
def chunkSource (c : EvidenceBundle) : String :=
  match c.source.doc_title with
  | some t => if t.isEmpty then c.source.doc_id else t
  | none => c.source.doc_id

/-- The location descriptor of a chunk: truthy page and section parts
joined by `", "`, or `"unknown location"` when both are absent. -/
def chunkLoc (c : EvidenceBundle) : String :=
  let loc_parts : List String :=
    (match c.location.page_number with
     | some n => if n ≠ 0 then ["p." ++ toString n] else []
     | none => []) ++
    (match c.location.section_name with
     | some s => if !s.isEmpty then [s] else []
     | none => [])
  if loc_parts.isEmpty then "unknown location" else joinSep ", " loc_parts

/-- One numbered block of `_format_evidence` (`i` counts from 1). -/
def mkChunkPart (i : ℕ) (c : EvidenceBundle) : String :=
  "### Chunk " ++ toString i ++ " [" ++ chunkSource c ++ " — " ++ chunkLoc c ++ "]\n"
    ++ c.content ++ "\n"

/-- The numbered blocks for `enumerate(chunks, 1)`. -/
def mkChunkParts : ℕ → List EvidenceBundle → List String
  | _, [] => []
  | i, c :: rest => mkChunkPart i c :: mkChunkParts (i + 1) rest

/-- `VerificationJudge._format_evidence`. -/
def formatEvidence (chunks : List EvidenceBundle) : String :=
  if chunks.isEmpty then "(no evidence retrieved)"
  else joinSep "\n" (mkChunkParts 1 chunks)

/-- `_GROUNDING_TEMPLATE.format(...)`: the grounding judge user prompt. -/
def groundingPrompt (from_var to_var mechanism evidence_block : String) : String :=
  "## Proposed Causal Edge\n" ++
  "- **Cause variable:** " ++ from_var ++ "\n" ++
  "- **Effect variable:** " ++ to_var ++ "\n" ++
  "- **Proposed mechanism:** " ++ mechanism ++ "\n\n" ++
  "## Retrieved Evidence Chunks\n" ++ evidence_block ++ "\n\n" ++
  "## Task\n" ++
  "Does the evidence above explicitly support the claim that\n" ++
  "**" ++ from_var ++ "** causes **" ++ to_var ++ "** through the mechanism described?\n" ++
  "Evaluate carefully and respond with a structured verdict."

/-- `_ADVERSARIAL_TEMPLATE.format(...)`: the adversarial judge user prompt. -/
def adversarialPrompt (from_var to_var mechanism supporting_quote : String) : String :=
  "## Proposed Causal Edge\n" ++
  "- **Cause variable:** " ++ from_var ++ "\n" ++
  "- **Effect variable:** " ++ to_var ++ "\n" ++
  "- **Proposed mechanism:** " ++ mechanism ++ "\n" ++
  "- **Supporting quote:** " ++ supporting_quote ++ "\n\n" ++
  "## Task\n" ++
  "Assume this causal relationship is spurious.  What alternative\n" ++
  "explanations could account for the observed evidence?  What\n" ++
  "assumptions must hold for the causal claim to be valid?"

/-- `VerificationJudge.evaluate`: builds the grounding prompt (embedding
the formatted evidence block) and returns the oracle verdict for it.
The fixed system prompt and the log lines carry no telemetry mutation;
the telemetry state passes through untouched. Result:
`(prompt, telemetry after the call, verdict)`. -/
def VerificationJudge.evaluate (tel : PipelineTelemetry)
    (oracle : String → VerificationVerdict) (from_var to_var mechanism : String)
    (evidence_chunks : List EvidenceBundle) :
    String × PipelineTelemetry × VerificationVerdict :=
  let evidence_block := formatEvidence evidence_chunks
  let prompt := groundingPrompt from_var to_var mechanism evidence_block
  (prompt, tel, oracle prompt)

/-- `VerificationJudge.evaluate_adversarial`: builds the adversarial
prompt (a falsy quote becomes `"(no quote extracted)"`), bumps
`verification.total_adversarial_calls` on the telemetry singleton, and
returns the oracle verdict. No event is appended. Result:
`(prompt, telemetry after the call, verdict)`. -/
def VerificationJudge.evaluate_adversarial (tel : PipelineTelemetry)
    (oracle : String → AdversarialVerdict) (from_var to_var mechanism : String)
    (supporting_quote : String) :
    String × PipelineTelemetry × AdversarialVerdict :=
  let prompt := adversarialPrompt from_var to_var mechanism
    (if supporting_quote.isEmpty then "(no quote extracted)" else supporting_quote)
  let tel1 :=
    { tel with verification :=
        { tel.verification with
          total_adversarial_calls := tel.verification.total_adversarial_calls + 1 } }
  (prompt, tel1, oracle prompt)

-- ━━━━━━━━━━━━━━━━━  VerificationConfig (config.py)  ━━━━━━━━━━━━━━━━━

/-- `VerificationConfig`: configuration of the agentic verification loop. -/
structure VerificationConfig where
  max_judge_iterations : ℤ
  grounding_confidence_threshold : ℚ
  enable_adversarial_pass : Bool
  judge_model : String
  llm_semaphore_limit : ℤ
  max_retries : ℤ
  backoff_base : ℚ
  backoff_jitter_max : ℚ
  retrieval_top_k : ℤ
  deriving DecidableEq

/-- Construct a `VerificationConfig`, enforcing exactly the field
constraints declared in the source (`ge`/`le` bounds on
`grounding_confidence_threshold`, `llm_semaphore_limit`, `max_retries`
and `retrieval_top_k`; no bound is declared on `max_judge_iterations`,
`backoff_base` or `backoff_jitter_max`). Out-of-bound values make
construction fail, as pydantic validation does. -/
def mkVerificationConfig (max_judge_iterations : ℤ)
    (grounding_confidence_threshold : ℚ) (enable_adversarial_pass : Bool)
    (judge_model : String) (llm_semaphore_limit max_retries : ℤ)
    (backoff_base backoff_jitter_max : ℚ) (retrieval_top_k : ℤ) :
    Option VerificationConfig :=
  if 0 ≤ grounding_confidence_threshold ∧ grounding_confidence_threshold ≤ 1 ∧
      1 ≤ llm_semaphore_limit ∧ 1 ≤ max_retries ∧ 1 ≤ retrieval_top_k then
    some
      { max_judge_iterations := max_judge_iterations
        grounding_confidence_threshold := grounding_confidence_threshold
        enable_adversarial_pass := enable_adversarial_pass
        judge_model := judge_model
        llm_semaphore_limit := llm_semaphore_limit
        max_retries := max_retries
        backoff_base := backoff_base
        backoff_jitter_max := backoff_jitter_max
        retrieval_top_k := retrieval_top_k }
  else none

/-- The declared field defaults of `VerificationConfig`. -/
def defaultVerificationConfig : VerificationConfig :=
  { max_judge_iterations := 2
    grounding_confidence_threshold := 2/5
    enable_adversarial_pass := false
    judge_model := "gemini-2.5-flash"
    llm_semaphore_limit := 12
    max_retries := 5
    backoff_base := 2
    backoff_jitter_max := 5
    retrieval_top_k := 5 }

-- ━━━━━━━━━━━━━━━━━  Helper lemmas  ━━━━━━━━━━━━━━━━━

lemma dictGet?_insert_self {α : Type} (d : List (String × α)) (k : String) (v : α) :
    dictGet? (dictInsert d k v) k = some v := by
  induction d with
  | nil => simp [dictInsert, dictGet?]
  | cons kv rest ih =>
    by_cases h : kv.1 = k
    · simp [dictInsert, dictGet?, h]
    · simp [dictInsert, dictGet?, h, ih]

lemma pyRound_zero (n : ℕ) : pyRound 0 n = 0 := by
  simp [pyRound, pyFloor]

/-- `record_llm_call` bumps the call counter and appends no event. -/
lemma record_llm_call_effects (st : PipelineTelemetry) (model : String)
    (pc cc : ℤ) (lat : ℚ) (pt ct : ℤ) :
    (st.record_llm_call model pc cc lat pt ct).llm.total_calls = st.llm.total_calls + 1 ∧
    (st.record_llm_call model pc cc lat pt ct).events = st.events := by
  unfold PipelineTelemetry.record_llm_call
  refine ⟨?_, rfl⟩
  dsimp only
  split <;> rfl

/-- `record_llm_call` with a falsy `prompt_tokens` adds `prompt_chars // 4`
to the token estimate. -/
lemma record_llm_call_est_default (st : PipelineTelemetry) (model : String)
    (pc cc : ℤ) (lat : ℚ) (ct : ℤ) :
    (st.record_llm_call model pc cc lat 0 ct).llm.total_prompt_tokens_est =
      st.llm.total_prompt_tokens_est + Int.fdiv pc 4 := by
  unfold PipelineTelemetry.record_llm_call
  simp

-- Substring relation on strings, for the evidence-block rendering claims.

/-- `needle` occurs contiguously inside `hay`. -/
def strSub (needle hay : String) : Prop :=
  ∃ pre post : List Char, hay.data = pre ++ needle.data ++ post

lemma strSub_refl (s : String) : strSub s s := ⟨[], [], by simp⟩

lemma strSub_appendR (a b n : String) (h : strSub n a) : strSub n (a ++ b) := by
  obtain ⟨pre, post, hd⟩ := h
  exact ⟨pre, post ++ b.data, by simp [String.data_append, hd]⟩

lemma strSub_appendL (a b n : String) (h : strSub n b) : strSub n (a ++ b) := by
  obtain ⟨pre, post, hd⟩ := h
  exact ⟨a.data ++ pre, post, by simp [String.data_append, hd]⟩

lemma strSub_trans (a b c : String) (h1 : strSub a b) (h2 : strSub b c) : strSub a c := by
  obtain ⟨p1, s1, hd1⟩ := h1
  obtain ⟨p2, s2, hd2⟩ := h2
  exact ⟨p2 ++ p1, s1 ++ s2, by simp [hd2, hd1]⟩

lemma strSub_joinSep (sep x : String) (l : List String) (h : x ∈ l) :
    strSub x (joinSep sep l) := by
  induction l with
  | nil => cases h
  | cons a rest ih =>
    cases rest with
    | nil =>
      have hx : x = a := by simpa using h
      subst hx
      simpa [joinSep] using strSub_refl x
    | cons b rest2 =>
      rcases List.mem_cons.mp h with hx | hx
      · subst hx
        show strSub x (x ++ sep ++ joinSep sep (b :: rest2))
        exact strSub_appendR _ _ _ (strSub_appendR _ _ _ (strSub_refl x))
      · show strSub x (a ++ sep ++ joinSep sep (b :: rest2))
        exact strSub_appendL _ _ _ (ih hx)

lemma mkChunkPart_mem (chunks : List EvidenceBundle) (n : ℕ) (i : Fin chunks.length) :
    mkChunkPart (n + i.1) (chunks.get i) ∈ mkChunkParts n chunks := by
  induction chunks generalizing n with
  | nil => exact absurd i.2 (by simp)
  | cons c rest ih =>
    obtain ⟨iv, hi⟩ := i
    cases iv with
    | zero => simp [mkChunkParts]
    | succ j =>
      have hj : j < rest.length := by simpa using hi
      have h := ih (n + 1) ⟨j, hj⟩
      have harith : n + 1 + j = n + (j + 1) := by omega
      rw [harith] at h
      simpa [mkChunkParts] using Or.inr h

lemma strSub_head_mkChunkPart (i : ℕ) (c : EvidenceBundle) :
    strSub ("### Chunk " ++ toString i) (mkChunkPart i c) :=
  strSub_appendR _ _ _ (strSub_appendR _ _ _ (strSub_appendR _ _ _ (strSub_appendR _ _ _
    (strSub_appendR _ _ _ (strSub_appendR _ _ _ (strSub_appendR _ _ _ (strSub_refl _)))))))

lemma strSub_source_mkChunkPart (i : ℕ) (c : EvidenceBundle) :
    strSub (chunkSource c) (mkChunkPart i c) :=
  strSub_appendR _ _ _ (strSub_appendR _ _ _ (strSub_appendR _ _ _ (strSub_appendR _ _ _
    (strSub_appendR _ _ _ (strSub_appendL _ _ _ (strSub_refl _))))))

lemma strSub_loc_mkChunkPart (i : ℕ) (c : EvidenceBundle) :
    strSub (chunkLoc c) (mkChunkPart i c) :=
  strSub_appendR _ _ _ (strSub_appendR _ _ _ (strSub_appendR _ _ _
    (strSub_appendL _ _ _ (strSub_refl _))))

lemma strSub_content_mkChunkPart (i : ℕ) (c : EvidenceBundle) :
    strSub c.content (mkChunkPart i c) :=
  strSub_appendR _ _ _ (strSub_appendL _ _ _ (strSub_refl _))

-- ━━━━━━━━━━━━━━━━━  Claim theorems  ━━━━━━━━━━━━━━━━━

/-- Claim C9: with an empty evidence list, `_format_evidence` yields the
exact placeholder `"(no evidence retrieved)"` (and `evaluate` embeds it in
the prompt instead of failing); with a non-empty list, the rendering
contains, for every chunk, its 1-based index marker, its source title or
id, its location descriptor and its raw content. -/
theorem format_evidence_spec :
    formatEvidence [] = "(no evidence retrieved)" ∧
    (∀ (tel : PipelineTelemetry) (oracle : String → VerificationVerdict)
        (f t m : String),
      (VerificationJudge.evaluate tel oracle f t m []).1 =
        groundingPrompt f t m "(no evidence retrieved)") ∧
    (∀ (chunks : List EvidenceBundle) (i : Fin chunks.length),
      strSub ("### Chunk " ++ toString (i.1 + 1)) (formatEvidence chunks) ∧
      strSub (chunkSource (chunks.get i)) (formatEvidence chunks) ∧
      strSub (chunkLoc (chunks.get i)) (formatEvidence chunks) ∧
      strSub (chunks.get i).content (formatEvidence chunks)) := by
  refine ⟨rfl, fun tel oracle f t m => rfl, fun chunks i => ?_⟩
  cases chunks with
  | nil => exact absurd i.2 (by simp)
  | cons c rest =>
    have hfmt : formatEvidence (c :: rest) = joinSep "\n" (mkChunkParts 1 (c :: rest)) := by
      simp [formatEvidence]
    have hmem := mkChunkPart_mem (c :: rest) 1 i
    have hpart : strSub (mkChunkPart (1 + i.1) ((c :: rest).get i))
        (formatEvidence (c :: rest)) := by
      rw [hfmt]
      exact strSub_joinSep _ _ _ hmem
    have hidx : 1 + i.1 = i.1 + 1 := Nat.add_comm 1 i.1
    rw [hidx] at hpart
    exact ⟨strSub_trans _ _ _ (strSub_head_mkChunkPart _ _) hpart,
           strSub_trans _ _ _ (strSub_source_mkChunkPart _ _) hpart,
           strSub_trans _ _ _ (strSub_loc_mkChunkPart _ _) hpart,
           strSub_trans _ _ _ (strSub_content_mkChunkPart _ _) hpart⟩

/-- Claim C8: `reset()` discards the entire prior state: the result equals
a freshly constructed `PipelineTelemetry` capturing the same start
timestamps, with every counter zero, every registry empty and an empty
event log. -/
theorem reset_equals_fresh_instance (s : PipelineTelemetry) (now : ℚ) (wall : String) :
    s.reset now wall = PipelineTelemetry.initState now wall ∧
    (s.reset now wall).llm = {} ∧
    (s.reset now wall).pywhyllm = {} ∧
    (s.reset now wall).verification = {} ∧
    (s.reset now wall).edge_dropout = {} ∧
    (s.reset now wall).events = [] ∧
    (s.reset now wall).stage_starts = [] ∧
    (s.reset now wall).stage_durations = [] ∧
    (s.reset now wall).variable_count_raw = 0 ∧
    (s.reset now wall).variable_count_canonical = 0 ∧
    (s.reset now wall).variable_count_added = 0 ∧
    (s.reset now wall).evidence_cache_size = 0 ∧
    (s.reset now wall).var_id_resolve_misses = [] :=
  ⟨rfl, rfl, rfl, rfl, rfl, rfl, rfl, rfl, rfl, rfl, rfl, rfl, rfl⟩

/-- Claim C2 (amended): `summary()` mutates nothing (it is a pure function
of the state and the clock), and two calls with no intervening mutation
agree on every field except `total_run_seconds`, which reflects the
monotonic clock at the moment of each call. -/
theorem summary_idempotent_modulo_clock (st : PipelineTelemetry) (t1 t2 : ℚ) :
    { st.summary t1 with total_run_seconds := 0 } =
      { st.summary t2 with total_run_seconds := 0 } := rfl

/-- Claim C2 (counterexample): on a freshly reset instance, `summary()`
taken at monotonic time 0 and again at time 1 — with no intervening
mutation — yields different outputs (`total_run_seconds` is 0.0 vs 1.0),
so the outputs of two calls are not always identical. -/
theorem summary_clock_counterexample :
    PipelineTelemetry.summary (PipelineTelemetry.initState 0 "2026-01-01T00:00:00+00:00") 0 ≠
      PipelineTelemetry.summary (PipelineTelemetry.initState 0 "2026-01-01T00:00:00+00:00") 1 := by
  intro h
  have h2 := congrArg Summary.total_run_seconds h
  simp [PipelineTelemetry.summary, PipelineTelemetry.initState,
    PipelineTelemetry.freshState, pyRound, pyFloor] at h2

/-- Claim C4 (amended): `evaluate` performs no telemetry mutation at all —
the judge-verdict record and the `total_judge_calls` increment happen in
`record_verification_verdict`, which `evaluate` does not call — while
`evaluate_adversarial` increments `total_adversarial_calls` by exactly one
but appends no telemetry event. -/
theorem judge_telemetry_effects :
    (∀ (tel : PipelineTelemetry) (oracle : String → VerificationVerdict)
        (f t m : String) (chunks : List EvidenceBundle),
      (VerificationJudge.evaluate tel oracle f t m chunks).2.1 = tel) ∧
    (∀ (tel : PipelineTelemetry) (oracle : String → AdversarialVerdict) (f t m q : String),
      (VerificationJudge.evaluate_adversarial tel oracle f t m q).2.1.verification.total_adversarial_calls
          = tel.verification.total_adversarial_calls + 1 ∧
      (VerificationJudge.evaluate_adversarial tel oracle f t m q).2.1.events = tel.events ∧
      (VerificationJudge.evaluate_adversarial tel oracle f t m q).2.1.verification.total_judge_calls
          = tel.verification.total_judge_calls) :=
  ⟨fun _ _ _ _ _ _ => rfl, fun _ _ _ _ _ _ => ⟨rfl, rfl, rfl⟩⟩

/-- Claim C4 (counterexample): on a fresh telemetry instance, `evaluate`
neither increments `total_judge_calls` nor appends an event, and
`evaluate_adversarial` appends no event either — against the claim that
each call emits exactly one record and bumps its counter. -/
theorem judge_telemetry_counterexample :
    (¬ ((VerificationJudge.evaluate (PipelineTelemetry.initState 0 "w")
          (fun _ => ⟨false, SupportType.irrelevant, none, none, 0, none⟩)
          "a" "b" "m" []).2.1.verification.total_judge_calls =
            (PipelineTelemetry.initState 0 "w").verification.total_judge_calls + 1 ∧
        (VerificationJudge.evaluate (PipelineTelemetry.initState 0 "w")
          (fun _ => ⟨false, SupportType.irrelevant, none, none, 0, none⟩)
          "a" "b" "m" []).2.1.events.length =
            (PipelineTelemetry.initState 0 "w").events.length + 1)) ∧
    ¬ ((VerificationJudge.evaluate_adversarial (PipelineTelemetry.initState 0 "w")
          (fun _ => ⟨true, [], [], [], 0⟩) "a" "b" "m" "q").2.1.events.length =
            (PipelineTelemetry.initState 0 "w").events.length + 1) := by
  constructor
  · intro h
    exact absurd h.1 (by decide)
  · intro h
    exact absurd h (by decide)

/-- Claim C7: `stage_end(s)` with no recorded `stage_start(s)` does not
fail: it stores a stage duration of exactly zero seconds for `s` and
still appends a `stage_end` event whose payload reports zero elapsed
seconds. -/
theorem stage_end_missing_start (st : PipelineTelemetry) (stage : String)
    (tNow tRec : ℚ) (wall : String)
    (h : dictGet? st.stage_starts stage = none) :
    dictGet? ((st.stage_end stage none tNow tRec wall).stage_durations) stage = some 0 ∧
    (st.stage_end stage none tNow tRec wall).events =
      st.events ++ [⟨stage, "stage_end", tRec, wall, [("elapsed_seconds", JVal.num 0)]⟩] := by
  unfold PipelineTelemetry.stage_end
  rw [h]
  constructor
  · exact dictGet?_insert_self _ _ _
  · simp [PipelineTelemetry.record, pyRound_zero]

/-- Witness for C7: ending the stage `"proposal"` on a fresh instance,
where no `stage_start` was ever recorded, yields duration 0 and one
`stage_end` event. -/
theorem stage_end_missing_start_witness :
    dictGet? (((PipelineTelemetry.initState 0 "w").stage_end "proposal" none 5 6 "t").stage_durations)
        "proposal" = some 0 ∧
    ((PipelineTelemetry.initState 0 "w").stage_end "proposal" none 5 6 "t").events =
      (PipelineTelemetry.initState 0 "w").events ++
        [⟨"proposal", "stage_end", 6, "t", [("elapsed_seconds", JVal.num 0)]⟩] :=
  stage_end_missing_start (PipelineTelemetry.initState 0 "w") "proposal" 5 6 "t" rfl

/-- Claim C5 (amended): the no-override construction has the declared
defaults (`max_judge_iterations=2`, threshold `0.4`, adversarial pass
off, semaphore `12`, retries `5`, backoff base `2.0`, jitter max `5.0`,
top-k `5`); every accepted configuration satisfies
`grounding_confidence_threshold ∈ [0,1]`, `llm_semaphore_limit ≥ 1`,
`max_retries ≥ 1` and `retrieval_top_k ≥ 1`, and values outside those
bounds are rejected at construction — but `max_judge_iterations` carries
no declared lower bound, so values below 1 are accepted. -/
theorem verification_config_defaults_and_bounds :
    (defaultVerificationConfig.max_judge_iterations = 2 ∧
     defaultVerificationConfig.grounding_confidence_threshold = 2/5 ∧
     defaultVerificationConfig.enable_adversarial_pass = false ∧
     defaultVerificationConfig.llm_semaphore_limit = 12 ∧
     defaultVerificationConfig.max_retries = 5 ∧
     defaultVerificationConfig.backoff_base = 2 ∧
     defaultVerificationConfig.backoff_jitter_max = 5 ∧
     defaultVerificationConfig.retrieval_top_k = 5) ∧
    mkVerificationConfig 2 (2/5) false "gemini-2.5-flash" 12 5 2 5 5 =
      some defaultVerificationConfig ∧
    (∀ (mji : ℤ) (gct : ℚ) (eap : Bool) (jm : String) (lsl mr : ℤ) (bb bjm : ℚ)
        (rtk : ℤ) (c : VerificationConfig),
      mkVerificationConfig mji gct eap jm lsl mr bb bjm rtk = some c →
        0 ≤ c.grounding_confidence_threshold ∧ c.grounding_confidence_threshold ≤ 1 ∧
        1 ≤ c.llm_semaphore_limit ∧ 1 ≤ c.max_retries ∧ 1 ≤ c.retrieval_top_k) ∧
    (∀ (mji : ℤ) (gct : ℚ) (eap : Bool) (jm : String) (lsl mr : ℤ) (bb bjm : ℚ)
        (rtk : ℤ),
      (gct < 0 ∨ 1 < gct ∨ lsl < 1 ∨ mr < 1 ∨ rtk < 1) →
        mkVerificationConfig mji gct eap jm lsl mr bb bjm rtk = none) := by
  refine ⟨⟨rfl, rfl, rfl, rfl, rfl, rfl, rfl, rfl⟩, ?_, ?_, ?_⟩
  · unfold mkVerificationConfig
    rw [if_pos (by norm_num :
      (0:ℚ) ≤ 2/5 ∧ (2/5:ℚ) ≤ 1 ∧ (1:ℤ) ≤ 12 ∧ (1:ℤ) ≤ 5 ∧ (1:ℤ) ≤ 5)]
    rfl
  · intro mji gct eap jm lsl mr bb bjm rtk c h
    unfold mkVerificationConfig at h
    split at h
    · rename_i hcond
      cases h
      exact ⟨hcond.1, hcond.2.1, hcond.2.2.1, hcond.2.2.2.1, hcond.2.2.2.2⟩
    · cases h
  · intro mji gct eap jm lsl mr bb bjm rtk h
    unfold mkVerificationConfig
    rw [if_neg]
    intro hc
    rcases h with h | h | h | h | h
    · exact absurd hc.1 (not_le.mpr h)
    · exact absurd hc.2.1 (not_le.mpr h)
    · exact absurd hc.2.2.1 (not_le.mpr h)
    · exact absurd hc.2.2.2.1 (not_le.mpr h)
    · exact absurd hc.2.2.2.2 (not_le.mpr h)

/-- Claim C5 (counterexample): `max_judge_iterations = 0` — below the
claimed lower bound of 1 — is accepted at construction, not rejected. -/
theorem verification_config_counterexample :
    mkVerificationConfig 0 (2/5) false "gemini-2.5-flash" 12 5 2 5 5 =
      some { defaultVerificationConfig with max_judge_iterations := 0 } := by
  unfold mkVerificationConfig
  rw [if_pos (by norm_num :
    (0:ℚ) ≤ 2/5 ∧ (2/5:ℚ) ≤ 1 ∧ (1:ℤ) ≤ 12 ∧ (1:ℤ) ≤ 5 ∧ (1:ℤ) ≤ 5)]
  rfl

/-- Witness for C5: concrete instantiations of both bound directions —
the defaults are accepted (so their fields satisfy the bounds), and an
out-of-bounds `llm_semaphore_limit = 0` is rejected. -/
theorem verification_config_witness :
    ((0:ℚ) ≤ defaultVerificationConfig.grounding_confidence_threshold ∧
      defaultVerificationConfig.grounding_confidence_threshold ≤ 1 ∧
      (1:ℤ) ≤ defaultVerificationConfig.llm_semaphore_limit ∧
      (1:ℤ) ≤ defaultVerificationConfig.max_retries ∧
      (1:ℤ) ≤ defaultVerificationConfig.retrieval_top_k) ∧
    mkVerificationConfig 2 (2/5) false "gemini-2.5-flash" 0 5 2 5 5 = none :=
  ⟨verification_config_defaults_and_bounds.2.2.1 2 (2/5) false "gemini-2.5-flash"
      12 5 2 5 5 defaultVerificationConfig verification_config_defaults_and_bounds.2.1,
   verification_config_defaults_and_bounds.2.2.2 2 (2/5) false "gemini-2.5-flash"
      0 5 2 5 5 (Or.inr (Or.inr (Or.inl (by decide))))⟩

-- ━━━━━━━━━━━━━━━━━  Sequence invariants  ━━━━━━━━━━━━━━━━━

/-- The pairwise buckets account exactly for the pair total. -/
def pairsBalanced (p : PyWhyLLMCounter) : Prop :=
  p.total_pairs = p.pairs_a + p.pairs_b + p.pairs_c + p.pairs_parse_fail + p.pairs_exception

lemma telStep_pairsBalanced (st : PipelineTelemetry) (op : TelOp)
    (h : pairsBalanced st.pywhyllm) : pairsBalanced (telStep st op).pywhyllm := by
  cases op with
  | record_pywhyllm_pair v1 v2 ans raw lat err wn =>
    unfold pairsBalanced at *
    simp only [telStep, PipelineTelemetry.record_pywhyllm_pair]
    split_ifs <;> simp <;> omega
  | record_verification_final fv tv g rr iu =>
    unfold pairsBalanced at *
    simp only [telStep, PipelineTelemetry.record_verification_final]
    split_ifs <;> simpa using h
  | record_llm_call model pc cc lat pt ct => exact h
  | record_llm_error model error isq now wall => exact h
  | _ => exact h

lemma telStep_final_count (st : PipelineTelemetry) (op : TelOp) :
    (telStep st op).verification.grounded_count + (telStep st op).verification.rejected_count =
      st.verification.grounded_count + st.verification.rejected_count +
        (if op.isVerificationFinal then 1 else 0) := by
  cases op with
  | record_verification_final fv tv g rr iu =>
    simp only [telStep, PipelineTelemetry.record_verification_final, TelOp.isVerificationFinal]
    split_ifs <;> simp <;> omega
  | _ => rfl

lemma telRun_final_count (ops : List TelOp) : ∀ st : PipelineTelemetry,
    (telRun st ops).verification.grounded_count + (telRun st ops).verification.rejected_count =
      st.verification.grounded_count + st.verification.rejected_count +
        ops.countP TelOp.isVerificationFinal := by
  induction ops with
  | nil => intro st; simp [telRun]
  | cons op rest ih =>
    intro st
    have hstep := telStep_final_count st op
    have hrest := ih (telStep st op)
    simp only [telRun, List.foldl_cons] at *
    rw [hrest, hstep, List.countP_cons]
    split_ifs <;> omega

lemma telRun_pairsBalanced (ops : List TelOp) : ∀ st : PipelineTelemetry,
    pairsBalanced st.pywhyllm → pairsBalanced (telRun st ops).pywhyllm := by
  induction ops with
  | nil => intro st h; exact h
  | cons op rest ih =>
    intro st h
    exact ih (telStep st op) (telStep_pairsBalanced st op h)

/-- Claim C3: after any sequence of recorder calls from a fresh instance,
`pywhyllm.total_pairs` equals the sum of the five answer buckets, and
`verification.grounded_count + verification.rejected_count` equals the
number of `record_verification_final` calls made. -/
theorem pairwise_and_final_counter_invariants (t : ℚ) (w : String) (ops : List TelOp) :
    (telRun (PipelineTelemetry.initState t w) ops).pywhyllm.total_pairs =
      (telRun (PipelineTelemetry.initState t w) ops).pywhyllm.pairs_a +
      (telRun (PipelineTelemetry.initState t w) ops).pywhyllm.pairs_b +
      (telRun (PipelineTelemetry.initState t w) ops).pywhyllm.pairs_c +
      (telRun (PipelineTelemetry.initState t w) ops).pywhyllm.pairs_parse_fail +
      (telRun (PipelineTelemetry.initState t w) ops).pywhyllm.pairs_exception ∧
    (telRun (PipelineTelemetry.initState t w) ops).verification.grounded_count +
      (telRun (PipelineTelemetry.initState t w) ops).verification.rejected_count =
      ops.countP TelOp.isVerificationFinal := by
  constructor
  · exact telRun_pairsBalanced ops (PipelineTelemetry.initState t w) rfl
  · have h := telRun_final_count ops (PipelineTelemetry.initState t w)
    simpa [PipelineTelemetry.initState, PipelineTelemetry.freshState] using h

lemma telRun_llm_calls (args : List (String × ℤ × ℤ × ℚ × ℤ × ℤ)) :
    ∀ st : PipelineTelemetry,
      (telRun st (args.map mkLlmCallOp)).llm.total_calls = st.llm.total_calls + args.length ∧
      (telRun st (args.map mkLlmCallOp)).events = st.events := by
  induction args with
  | nil => intro st; simp [telRun]
  | cons a rest ih =>
    intro st
    have hstep : (telStep st (mkLlmCallOp a)).llm.total_calls = st.llm.total_calls + 1 ∧
        (telStep st (mkLlmCallOp a)).events = st.events :=
      record_llm_call_effects st a.1 a.2.1 a.2.2.1 a.2.2.2.1 a.2.2.2.2.1 a.2.2.2.2.2
    have hrest := ih (telStep st (mkLlmCallOp a))
    constructor
    · show (telRun (telStep st (mkLlmCallOp a)) (rest.map mkLlmCallOp)).llm.total_calls = _
      rw [hrest.1, hstep.1, List.length_cons]
      omega
    · show (telRun (telStep st (mkLlmCallOp a)) (rest.map mkLlmCallOp)).events = _
      rw [hrest.2, hstep.2]

/-- Claim C1 (amended): `record_llm_call` updates its counters without
appending any event, so after any sequence of `record_llm_call` calls the
counter `llm.total_calls` equals the number of calls made while the event
log gains no events at all — the counter equals the call count, not a
count of logged LLM-call events. -/
theorem llm_call_counter_without_events (t : ℚ) (w : String)
    (args : List (String × ℤ × ℤ × ℚ × ℤ × ℤ)) :
    (telRun (PipelineTelemetry.initState t w) (args.map mkLlmCallOp)).llm.total_calls =
      args.length ∧
    (telRun (PipelineTelemetry.initState t w) (args.map mkLlmCallOp)).events = [] := by
  have h := telRun_llm_calls args (PipelineTelemetry.initState t w)
  simpa [PipelineTelemetry.initState, PipelineTelemetry.freshState] using h

/-- Claim C1 (counterexample): one `record_llm_call` on a fresh instance
leaves `llm.total_calls = 1` while the event log is empty, so the counter
does not equal the number of events in the log recording an LLM call
(that number is 0 — no event of any kind exists). -/
theorem llm_call_counter_event_divergence :
    (telRun (PipelineTelemetry.initState 0 "w")
        [TelOp.record_llm_call "gemini-2.5-flash" 1000 500 250 0 0]).llm.total_calls = 1 ∧
    (telRun (PipelineTelemetry.initState 0 "w")
        [TelOp.record_llm_call "gemini-2.5-flash" 1000 500 250 0 0]).events = [] ∧
    (telRun (PipelineTelemetry.initState 0 "w")
        [TelOp.record_llm_call "gemini-2.5-flash" 1000 500 250 0 0]).llm.total_calls ≠
      (telRun (PipelineTelemetry.initState 0 "w")
        [TelOp.record_llm_call "gemini-2.5-flash" 1000 500 250 0 0]).events.length :=
  ⟨rfl, rfl, by decide⟩

lemma telRun_llm_default_est (args : List (String × ℤ × ℤ × ℚ)) :
    ∀ st : PipelineTelemetry,
      (telRun st (args.map mkLlmCallOpDefault)).llm.total_prompt_tokens_est =
        st.llm.total_prompt_tokens_est + (args.map fun a => Int.fdiv a.2.1 4).sum := by
  induction args with
  | nil => intro st; simp [telRun]
  | cons a rest ih =>
    intro st
    have hstep : (telStep st (mkLlmCallOpDefault a)).llm.total_prompt_tokens_est =
        st.llm.total_prompt_tokens_est + Int.fdiv a.2.1 4 :=
      record_llm_call_est_default st a.1 a.2.1 a.2.2.1 a.2.2.2 0
    have hrest := ih (telStep st (mkLlmCallOpDefault a))
    show (telRun (telStep st (mkLlmCallOpDefault a)) (rest.map mkLlmCallOpDefault)).llm.total_prompt_tokens_est
        = st.llm.total_prompt_tokens_est + (Int.fdiv a.2.1 4 + (rest.map fun a => Int.fdiv a.2.1 4).sum)
    rw [hrest, hstep]
    ring

/-- Claim C10: with `prompt_tokens` left at its default of 0, the token
estimate accumulates `prompt_chars // 4` per call; a call with
`prompt_tokens > 0` also adds `prompt_chars // 4` and then replaces the
running estimate by its max with `prompt_tokens`, so the estimate is not
additive in `prompt_tokens` across such calls. -/
theorem prompt_token_estimate :
    (∀ (t : ℚ) (w : String) (args : List (String × ℤ × ℤ × ℚ)),
      (telRun (PipelineTelemetry.initState t w) (args.map mkLlmCallOpDefault)).llm.total_prompt_tokens_est =
        (args.map fun a => Int.fdiv a.2.1 4).sum) ∧
    (∀ (st : PipelineTelemetry) (model : String) (pc cc : ℤ) (lat : ℚ) (pt ct : ℤ),
      0 < pt →
        (st.record_llm_call model pc cc lat pt ct).llm.total_prompt_tokens_est =
          max (st.llm.total_prompt_tokens_est + Int.fdiv pc 4) pt) := by
  constructor
  · intro t w args
    have h := telRun_llm_default_est args (PipelineTelemetry.initState t w)
    simpa [PipelineTelemetry.initState, PipelineTelemetry.freshState] using h
  · intro st model pc cc lat pt ct hpt
    unfold PipelineTelemetry.record_llm_call
    have hne : pt ≠ 0 := by omega
    simp [hne]

/-- Witness for C10: two default calls with 9 and 6 prompt chars give an
estimate of `9//4 + 6//4 = 3`; a call with 100 prompt chars and
`prompt_tokens=10` on a fresh instance gives `max(0 + 25, 10) = 25`. -/
theorem prompt_token_estimate_witness :
    (telRun (PipelineTelemetry.initState 0 "w")
        ([("m", 9, 3, 100), ("m", 6, 2, 50)].map mkLlmCallOpDefault)).llm.total_prompt_tokens_est = 3 ∧
    ((PipelineTelemetry.initState 0 "w").record_llm_call "m" 100 0 0 10 0).llm.total_prompt_tokens_est = 25 := by
  constructor
  · rw [prompt_token_estimate.1 0 "w" [("m", 9, 3, 100), ("m", 6, 2, 50)]]
    decide
  · rw [prompt_token_estimate.2 (PipelineTelemetry.initState 0 "w") "m" 100 0 0 10 0 (by decide)]
    decide

lemma telStep_raw_cap (st : PipelineTelemetry) (op : TelOp)
    (h : st.pywhyllm.raw_outputs.length ≤ 200) :
    (telStep st op).pywhyllm.raw_outputs.length ≤ 200 := by
  cases op with
  | record_pywhyllm_pair v1 v2 ans raw lat err wn =>
    simp only [telStep, PipelineTelemetry.record_pywhyllm_pair]
    split_ifs <;> simp_all <;> omega
  | record_verification_final fv tv g rr iu =>
    simp only [telStep, PipelineTelemetry.record_verification_final]
    split_ifs <;> simpa using h
  | _ => exact h

lemma telRun_raw_cap (ops : List TelOp) : ∀ st : PipelineTelemetry,
    st.pywhyllm.raw_outputs.length ≤ 200 →
    (telRun st ops).pywhyllm.raw_outputs.length ≤ 200 := by
  induction ops with
  | nil => intro st h; exact h
  | cons op rest ih =>
    intro st h
    exact ih (telStep st op) (telStep_raw_cap st op h)

/-- Claim C6: `dump(path)` writes a single JSON document whose top-level
keys are exactly `summary`, `pywhyllm_raw_outputs` and `events` (the full
event log), returns the resolved absolute path, creates every missing
ancestor of the target's parent directory, and the retained raw pairwise
outputs never exceed 200 samples however many `record_pywhyllm_pair`
calls were made. -/
theorem dump_artifact_shape_and_cap :
    (∀ (st : PipelineTelemetry) (now : ℚ) (fs : FileSystem) (cwd : List String)
        (path : String),
      (st.dump now fs cwd path).2 = resolvePath cwd (parsePath path) ∧
      jvalTopKeys (dumpPayload st now) = ["summary", "pywhyllm_raw_outputs", "events"] ∧
      (∀ k : ℕ,
        k ≤ (resolvePath cwd
              { parsePath path with comps := (parsePath path).comps.dropLast }).length →
        (resolvePath cwd
            { parsePath path with comps := (parsePath path).comps.dropLast }).take k ∈
          (st.dump now fs cwd path).1.dirs) ∧
      ((st.dump now fs cwd path).2, dumpPayload st now) ∈ (st.dump now fs cwd path).1.files) ∧
    (∀ (t : ℚ) (w : String) (ops : List TelOp),
      (telRun (PipelineTelemetry.initState t w) ops).pywhyllm.raw_outputs.length ≤ 200) := by
  constructor
  · intro st now fs cwd path
    refine ⟨rfl, rfl, ?_, ?_⟩
    · intro k hk
      show _ ∈ (mkdirParents fs (resolvePath cwd
          { parsePath path with comps := (parsePath path).comps.dropLast })).dirs
      unfold mkdirParents
      refine List.mem_append.mpr (Or.inr ?_)
      exact List.mem_map.mpr ⟨k, List.mem_range.mpr (by omega), rfl⟩
    · show _ ∈ _ ++ [((st.dump now fs cwd path).2, dumpPayload st now)]
      exact List.mem_append.mpr (Or.inr (List.mem_singleton.mpr rfl))
  · intro t w ops
    exact telRun_raw_cap ops (PipelineTelemetry.initState t w) (by simp
      [PipelineTelemetry.initState, PipelineTelemetry.freshState])

/-- Witness for C6: dumping a fresh instance to
`diagnostic_output/telemetry.json` from cwd `/root` returns the resolved
absolute path and has created the parent directory. -/
theorem dump_artifact_witness :
    ((PipelineTelemetry.initState 0 "w").dump 0 ⟨[], []⟩ ["root"]
        "diagnostic_output/telemetry.json").2 =
      ["root", "diagnostic_output", "telemetry.json"] ∧
    ["root", "diagnostic_output"] ∈
      ((PipelineTelemetry.initState 0 "w").dump 0 ⟨[], []⟩ ["root"]
        "diagnostic_output/telemetry.json").1.dirs := by
  constructor
  · rw [(dump_artifact_shape_and_cap.1 (PipelineTelemetry.initState 0 "w") 0 ⟨[], []⟩
      ["root"] "diagnostic_output/telemetry.json").1]
    decide
  · have h := (dump_artifact_shape_and_cap.1 (PipelineTelemetry.initState 0 "w") 0 ⟨[], []⟩
      ["root"] "diagnostic_output/telemetry.json").2.2.1 2 (by decide)
    simpa using h
